import Mathlib

/-
Shallow embedding of the FM-Marketplace plugin core
(src/controllers/MarketplaceController.ts, src/prisma/client.ts =
CustomPrismaClient, src/types.ts, src/errors/MarketplaceError.ts,
src/index.ts plugin routes, src/types config schema).

Modelling conventions:
- The SQLite tables MarketplaceListing / ListingOffer / ListingMessage are a
  Store of three lists; the primary-key constraint on id is modelled as a
  uniqueness check on insert; uuid generation is an explicit newId argument.
- Timestamps (createdAt / updatedAt) are not modelled: no claim mentions them.
- zod object schemas strip keys they do not declare, so the value returned by
  a successful parse has exactly the keys of the schema; in particular the status
  key of an update payload never survives validation (listingSchema and
  offerSchema declare no status field).
- JavaScript truthiness in the guards of updateOffer is modelled exactly:
  the number 0 and the empty string are falsy, a missing field is falsy.
- A thrown MarketplaceError or plain Error is an Except.error; the HTTP
  error response produced by the catch block carries the same error value.
-/

namespace Marketplace

/-- ListingCondition from src/types.ts. -/
inductive ListingCondition
  | NEW
  | LIKE_NEW
  | GOOD
  | FAIR
  deriving DecidableEq, Repr

/-- ListingStatus from src/types.ts (the enumeration the controller imports). -/
inductive ListingStatus
  | DRAFT
  | PENDING_APPROVAL
  | AVAILABLE
  | PENDING_PAYMENT
  | SOLD
  | CANCELLED
  deriving DecidableEq, Repr

/-- OfferStatus from src/types.ts (the enumeration the controller imports). -/
inductive OfferStatus
  | PENDING
  | ACCEPTED
  | REJECTED
  | CANCELLED
  deriving DecidableEq, Repr

/-- MarketplaceListing row (prisma/schema.prisma, src/types.ts). -/
structure Listing where
  id : String
  title : String
  description : String
  price : Int
  sellerId : String
  condition : ListingCondition
  images : List String
  tags : List String
  status : ListingStatus
  deriving DecidableEq, Repr

/-- ListingOffer row (prisma/schema.prisma, src/types.ts). -/
structure Offer where
  id : String
  listingId : String
  buyerId : String
  amount : Int
  status : OfferStatus
  message : Option String
  deriving DecidableEq, Repr

/-- ListingMessage row (prisma/schema.prisma, src/types.ts). -/
structure ListingMsg where
  id : String
  listingId : String
  senderId : String
  content : String
  deriving DecidableEq, Repr

/-- The database state seen by CustomPrismaClient. -/
structure Store where
  listings : List Listing
  offers : List Offer
  messages : List ListingMsg
  deriving DecidableEq, Repr

/-- UserContext from the controller (c.get of the user key). -/
structure UserContext where
  id : String
  role : String
  familyId : String
  deriving DecidableEq, Repr

/-- MarketplaceError codes raised by the controller, plus VALIDATION_ERROR for
a zod parse failure and DB_ERROR for a plain Error thrown in the prisma
layer (src/errors/MarketplaceError.ts). -/
inductive ApiError
  | LISTING_NOT_FOUND
  | FORBIDDEN
  | LISTING_UNAVAILABLE
  | SELF_OFFER
  | VALIDATION_ERROR
  | DB_ERROR (msg : String)
  deriving DecidableEq, Repr

/-- CreateListingInput from src/types.ts. -/
structure CreateListingInput where
  title : String
  description : String
  price : Int
  condition : ListingCondition
  images : List String
  tags : Option (List String)
  deriving DecidableEq, Repr

/-- UpdateListingInput from src/types.ts; note it declares a status field. -/
structure UpdateListingInput where
  title : Option String
  description : Option String
  price : Option Int
  condition : Option ListingCondition
  images : Option (List String)
  tags : Option (List String)
  status : Option ListingStatus
  deriving DecidableEq, Repr

/-- CreateOfferInput from src/types.ts. -/
structure CreateOfferInput where
  amount : Int
  message : Option String
  deriving DecidableEq, Repr

/-- UpdateOfferInput from src/types.ts; note it declares a status field. -/
structure UpdateOfferInput where
  amount : Option Int
  message : Option String
  status : Option OfferStatus
  deriving DecidableEq, Repr

/-- CreateMessageInput from src/types.ts. -/
structure CreateMessageInput where
  content : String
  deriving DecidableEq, Repr

/-- The fields CustomPrismaClient.updateListing accepts (title, description,
price, condition, images, tags, status — and nothing else; in particular no
sellerId field exists in its signature). -/
structure ListingPatch where
  title : Option String
  description : Option String
  price : Option Int
  condition : Option ListingCondition
  images : Option (List String)
  tags : Option (List String)
  status : Option ListingStatus
  deriving DecidableEq, Repr

/-- The fields CustomPrismaClient.updateOffer accepts. -/
structure OfferPatch where
  amount : Option Int
  status : Option OfferStatus
  message : Option String
  deriving DecidableEq, Repr

/-- Helper: a predicate holds of an optional field when present. -/
def optHolds (p : α → Bool) : Option α → Bool
  | none => true
  | some a => p a

/-- The listingSchema parse of the controller (lines 18-25): title and description
non-empty, price at least 0, images non-empty. The condition field is
already well-typed here. -/
def listingSchemaCheck (d : CreateListingInput) : Bool :=
  decide (1 ≤ d.title.length) && decide (1 ≤ d.description.length) &&
  decide ((0:Int) ≤ d.price) && decide (1 ≤ d.images.length)

/-- The per-field-optional variant of listingSchema used by updateListing:
each declared field is validated when present, and keys the schema does not
declare — status among them — are stripped from the parsed value. -/
def listingSchemaPatchParse (d : UpdateListingInput) : Except ApiError ListingPatch :=
  if optHolds (fun t => decide (1 ≤ t.length)) d.title &&
     optHolds (fun t => decide (1 ≤ t.length)) d.description &&
     optHolds (fun p => decide ((0:Int) ≤ p)) d.price &&
     optHolds (fun i => decide (1 ≤ i.length)) d.images then
    Except.ok
      { title := d.title, description := d.description, price := d.price,
        condition := d.condition, images := d.images, tags := d.tags,
        status := none }
  else
    Except.error ApiError.VALIDATION_ERROR

/-- The offerSchema parse of the controller (lines 27-30): amount at least 0. -/
def offerSchemaCheck (d : CreateOfferInput) : Bool :=
  decide ((0:Int) ≤ d.amount)

/-- The per-field-optional variant of offerSchema used by updateOffer: amount
validated when present, message unconstrained, undeclared keys — status among
them — stripped from the parsed value. -/
def offerSchemaPatchParse (d : UpdateOfferInput) : Except ApiError OfferPatch :=
  if optHolds (fun a => decide ((0:Int) ≤ a)) d.amount then
    Except.ok { amount := d.amount, status := none, message := d.message }
  else
    Except.error ApiError.VALIDATION_ERROR

/-- The messageSchema parse of the controller (lines 32-34): content non-empty. -/
def messageSchemaCheck (d : CreateMessageInput) : Bool :=
  decide (1 ≤ d.content.length)

/-- The one-field patch the controller passes when it writes a bare status
change ({ status: ... }). -/
def statusOnlyPatch (st : ListingStatus) : ListingPatch :=
  { title := none, description := none, price := none, condition := none,
    images := none, tags := none, status := some st }

/-- CustomPrismaClient.findListingById: SELECT ... WHERE l.id = id LIMIT 1. -/
def findListingById (s : Store) (id : String) : Option Listing :=
  s.listings.find? (fun l => l.id == id)

/-- Apply a ListingPatch to a row, as the generated SET clauses do; fields
absent from the patch keep their value, and sellerId is not assignable. -/
def applyListingPatch (p : ListingPatch) (l : Listing) : Listing :=
  { id := l.id,
    title := p.title.getD l.title,
    description := p.description.getD l.description,
    price := p.price.getD l.price,
    sellerId := l.sellerId,
    condition := p.condition.getD l.condition,
    images := p.images.getD l.images,
    tags := p.tags.getD l.tags,
    status := p.status.getD l.status }

/-- True when no SET clause would be generated for this patch. -/
def listingPatchEmpty (p : ListingPatch) : Bool :=
  p.title.isNone && p.description.isNone && p.price.isNone &&
  p.condition.isNone && p.images.isNone && p.tags.isNone && p.status.isNone

/-- The table contents after UPDATE ... WHERE id = id with a ListingPatch. -/
def patchListings (ls : List Listing) (id : String) (p : ListingPatch) : List Listing :=
  ls.map (fun l => if l.id == id then applyListingPatch p l else l)

/-- The store after the UPDATE statement of CustomPrismaClient.updateListing; the
statement is skipped when no SET clause exists. -/
def prismaUpdateListingStore (s : Store) (id : String) (p : ListingPatch) : Store :=
  if listingPatchEmpty p then s
  else { listings := patchListings s.listings id p,
         offers := s.offers, messages := s.messages }

/-- CustomPrismaClient.updateListing: when at least one SET clause exists it
runs UPDATE ... WHERE id = id, then re-reads the row with findListingById and
throws a plain Error when the row is absent. -/
def prismaUpdateListing (s : Store) (id : String) (p : ListingPatch) :
    Store × Except ApiError Listing :=
  match findListingById (prismaUpdateListingStore s id p) id with
  | some l => (prismaUpdateListingStore s id p, Except.ok l)
  | none => (prismaUpdateListingStore s id p,
             Except.error (ApiError.DB_ERROR "Failed to update listing"))

/-- The row the INSERT of CustomPrismaClient.createListing produces: status
is hard-coded to ListingStatus.PENDING_APPROVAL (client.ts line 247) and
absent tags default to the empty list. -/
def newListingRow (newId : String) (d : CreateListingInput) (sellerId : String) : Listing :=
  { id := newId, title := d.title, description := d.description,
    price := d.price, sellerId := sellerId, condition := d.condition,
    images := d.images, tags := d.tags.getD [],
    status := ListingStatus.PENDING_APPROVAL }

/-- The table contents after the INSERT. -/
def insertListingStore (s : Store) (nl : Listing) : Store :=
  { listings := s.listings ++ [nl], offers := s.offers, messages := s.messages }

/-- CustomPrismaClient.createListing: INSERT with a fresh uuid, then re-read
the row via findListingById. The id column is the primary key, so inserting a
duplicate id fails. -/
def prismaCreateListing (s : Store) (newId : String) (d : CreateListingInput)
    (sellerId : String) : Store × Except ApiError Listing :=
  if s.listings.any (fun l => l.id == newId) then
    (s, Except.error (ApiError.DB_ERROR "unique constraint violation"))
  else
    match findListingById (insertListingStore s (newListingRow newId d sellerId)) newId with
    | some l1 => (insertListingStore s (newListingRow newId d sellerId), Except.ok l1)
    | none => (insertListingStore s (newListingRow newId d sellerId),
               Except.error (ApiError.DB_ERROR "Failed to create listing"))

/-- CustomPrismaClient.deleteListing: DELETE ... WHERE id = id RETURNING *;
throws when no row matched. -/
def prismaDeleteListing (s : Store) (id : String) : Store × Except ApiError Unit :=
  if s.listings.any (fun l => l.id == id) then
    ({ listings := s.listings.filter (fun l => !(l.id == id)),
       offers := s.offers, messages := s.messages }, Except.ok ())
  else
    (s, Except.error (ApiError.DB_ERROR "Listing not found"))

/-- CustomPrismaClient.createOffer: INSERT with a fresh uuid and status
hard-coded to OfferStatus.PENDING (client.ts line 331). -/
def prismaCreateOffer (s : Store) (newId listingId buyerId : String)
    (amount : Int) (message : Option String) : Store × Except ApiError Offer :=
  if s.offers.any (fun o => o.id == newId) then
    (s, Except.error (ApiError.DB_ERROR "unique constraint violation"))
  else
    let o : Offer :=
      { id := newId, listingId := listingId, buyerId := buyerId,
        amount := amount, status := OfferStatus.PENDING, message := message }
    ({ listings := s.listings, offers := s.offers ++ [o], messages := s.messages },
     Except.ok o)

/-- Apply an OfferPatch to a row, as the generated SET clauses do. -/
def applyOfferPatch (p : OfferPatch) (o : Offer) : Offer :=
  { id := o.id, listingId := o.listingId, buyerId := o.buyerId,
    amount := p.amount.getD o.amount,
    status := p.status.getD o.status,
    message := match p.message with | some m => some m | none => o.message }

/-- True when no SET clause would be generated for this patch. -/
def offerPatchEmpty (p : OfferPatch) : Bool :=
  p.amount.isNone && p.status.isNone && p.message.isNone

/-- The table contents after UPDATE ... WHERE id = id with an OfferPatch. -/
def patchOffers (os : List Offer) (id : String) (p : OfferPatch) : List Offer :=
  os.map (fun o => if o.id == id then applyOfferPatch p o else o)

/-- CustomPrismaClient.updateOffer: builds SET clauses from the present
fields and joins them. Unlike updateListing there is no guard on the clause
list being non-empty, and joining an empty clause list raises, so an update
with no present field throws before touching the table. Otherwise UPDATE ...
WHERE id = id RETURNING *, throwing when no row matched. -/
def prismaUpdateOffer (s : Store) (id : String) (p : OfferPatch) :
    Store × Except ApiError Offer :=
  if offerPatchEmpty p then
    (s, Except.error (ApiError.DB_ERROR "empty update clause"))
  else
    match (patchOffers s.offers id p).find? (fun o => o.id == id) with
    | some o =>
      ({ listings := s.listings, offers := patchOffers s.offers id p,
         messages := s.messages }, Except.ok o)
    | none =>
      ({ listings := s.listings, offers := patchOffers s.offers id p,
         messages := s.messages },
       Except.error (ApiError.DB_ERROR "Failed to update offer"))

/-- CustomPrismaClient.createMessage: INSERT with a fresh uuid. -/
def prismaCreateMessage (s : Store) (newId listingId senderId content : String) :
    Store × Except ApiError ListingMsg :=
  if s.messages.any (fun m => m.id == newId) then
    (s, Except.error (ApiError.DB_ERROR "unique constraint violation"))
  else
    let m : ListingMsg :=
      { id := newId, listingId := listingId, senderId := senderId, content := content }
    ({ listings := s.listings, offers := s.offers, messages := s.messages ++ [m] },
     Except.ok m)

/-- MarketplaceController.createListing (lines 77-96): validate, then insert
with sellerId := user.id. No configuration value is consulted anywhere on
this path. -/
def createListing (s : Store) (user : UserContext) (d : CreateListingInput)
    (newId : String) : Store × Except ApiError Listing :=
  if listingSchemaCheck d then prismaCreateListing s newId d user.id
  else (s, Except.error ApiError.VALIDATION_ERROR)

/-- MarketplaceController.updateListing (lines 98-130): existence check,
ownership check, validation (which strips the status key), then the update. -/
def updateListing (s : Store) (user : UserContext) (id : String)
    (d : UpdateListingInput) : Store × Except ApiError Listing :=
  match findListingById s id with
  | none => (s, Except.error ApiError.LISTING_NOT_FOUND)
  | some l =>
    if !(l.sellerId == user.id) then (s, Except.error ApiError.FORBIDDEN)
    else
      match listingSchemaPatchParse d with
      | Except.error e => (s, Except.error e)
      | Except.ok p => prismaUpdateListing s id p

/-- MarketplaceController.deleteListing (lines 132-159). -/
def deleteListing (s : Store) (user : UserContext) (id : String) :
    Store × Except ApiError Unit :=
  match findListingById s id with
  | none => (s, Except.error ApiError.LISTING_NOT_FOUND)
  | some l =>
    if !(l.sellerId == user.id) then (s, Except.error ApiError.FORBIDDEN)
    else prismaDeleteListing s id

/-- MarketplaceController.createOffer (lines 161-205): existence check, then
the AVAILABLE check, then the self-offer check, then validation, then the
insert. No offer-count limit is checked anywhere on this path. -/
def createOffer (s : Store) (user : UserContext) (listingId : String)
    (d : CreateOfferInput) (newId : String) : Store × Except ApiError Offer :=
  match findListingById s listingId with
  | none => (s, Except.error ApiError.LISTING_NOT_FOUND)
  | some l =>
    if !(l.status == ListingStatus.AVAILABLE) then
      (s, Except.error ApiError.LISTING_UNAVAILABLE)
    else if l.sellerId == user.id then
      (s, Except.error ApiError.SELF_OFFER)
    else if offerSchemaCheck d then
      prismaCreateOffer s newId listingId user.id d.amount d.message
    else (s, Except.error ApiError.VALIDATION_ERROR)

/-- JavaScript truthiness of an optional number: 0 is falsy. -/
def numTruthy : Option Int → Bool
  | none => false
  | some a => !(a == 0)

/-- JavaScript truthiness of an optional string: the empty string is falsy. -/
def strTruthy : Option String → Bool
  | none => false
  | some m => !(m == "")

/-- MarketplaceController.updateOffer (lines 207-256). The route parameter id
is the OFFER id, yet the snapshot is loaded with findListingById on that very
id. Both permission guards compare against the sellerId of that listing; the
validated data never carries a status key; when the status field of the request is
ACCEPTED the listing found above is set to PENDING_PAYMENT after the offer
row update. -/
def updateOffer (s : Store) (user : UserContext) (id : String)
    (d : UpdateOfferInput) : Store × Except ApiError Offer :=
  match findListingById s id with
  | none => (s, Except.error ApiError.LISTING_NOT_FOUND)
  | some listing =>
    if d.status.isSome && !(listing.sellerId == user.id) then
      (s, Except.error ApiError.FORBIDDEN)
    else if (numTruthy d.amount || strTruthy d.message) && (listing.sellerId == user.id) then
      (s, Except.error ApiError.FORBIDDEN)
    else
      match offerSchemaPatchParse d with
      | Except.error e => (s, Except.error e)
      | Except.ok p =>
        match prismaUpdateOffer s id p with
        | (s1, Except.error e) => (s1, Except.error e)
        | (s1, Except.ok o1) =>
          if d.status == some OfferStatus.ACCEPTED then
            match prismaUpdateListing s1 listing.id
                (statusOnlyPatch ListingStatus.PENDING_PAYMENT) with
            | (s2, Except.error e) => (s2, Except.error e)
            | (s2, Except.ok _) => (s2, Except.ok o1)
          else (s1, Except.ok o1)

/-- MarketplaceController.createMessage (lines 258-288): existence check,
validation, insert. No message-count limit is checked. -/
def createMessage (s : Store) (user : UserContext) (listingId : String)
    (d : CreateMessageInput) (newId : String) : Store × Except ApiError ListingMsg :=
  match findListingById s listingId with
  | none => (s, Except.error ApiError.LISTING_NOT_FOUND)
  | some _ =>
    if messageSchemaCheck d then
      prismaCreateMessage s newId listingId user.id d.content
    else (s, Except.error ApiError.VALIDATION_ERROR)

/-- MarketplaceController.handleListingApproved (lines 290-299): sets the
status of the listing to AVAILABLE with no check of the current status. -/
def handleListingApproved (s : Store) (listingId : String) :
    Store × Except ApiError Listing :=
  prismaUpdateListing s listingId (statusOnlyPatch ListingStatus.AVAILABLE)

/-- MarketplaceController.handlePaymentCompleted (lines 301-310): sets the
status of the listing to SOLD with no check of the current status. -/
def handlePaymentCompleted (s : Store) (listingId : String) :
    Store × Except ApiError Listing :=
  prismaUpdateListing s listingId (statusOnlyPatch ListingStatus.SOLD)

/-- features block of the plugin configuration (src/index.ts lines 14-19). -/
structure FeaturesConfig where
  autoApproval : Bool
  messaging : Bool
  offers : Bool
  deriving DecidableEq, Repr

/-- roles block of the plugin configuration (src/index.ts lines 20-25). -/
structure RolesConfig where
  canCreateListings : List String
  canDeleteListings : List String
  canApproveListings : List String
  canMakeOffers : List String
  deriving DecidableEq, Repr

/-- limits block of the plugin configuration (src/index.ts lines 26-31). -/
structure LimitsConfig where
  maxListingsPerUser : Nat
  maxImagesPerListing : Nat
  maxOffersPerListing : Nat
  maxMessagesPerListing : Nat
  deriving DecidableEq, Repr

/-- The validated plugin configuration. -/
structure MarketplaceConfig where
  features : FeaturesConfig
  roles : RolesConfig
  limits : LimitsConfig
  deriving DecidableEq, Repr

/-- The zod defaults of the configuration schema. -/
def defaultMarketplaceConfig : MarketplaceConfig :=
  { features := { autoApproval := false, messaging := true, offers := true },
    roles :=
      { canCreateListings := ["PARENT", "CHILD"],
        canDeleteListings := ["PARENT"],
        canApproveListings := ["PARENT"],
        canMakeOffers := ["PARENT", "CHILD"] },
    limits :=
      { maxListingsPerUser := 50, maxImagesPerListing := 10,
        maxOffersPerListing := 20, maxMessagesPerListing := 100 } }

/-- The approve route handler (src/index.ts lines 218-238); the route itself
is registered only when features.autoApproval is disabled. It checks only
the role of the caller, then invokes handleListingApproved. -/
def approveRoute (cfg : MarketplaceConfig) (user : UserContext) (s : Store)
    (id : String) : Store × Except ApiError Listing :=
  if !(cfg.roles.canApproveListings.contains user.role) then
    (s, Except.error ApiError.FORBIDDEN)
  else handleListingApproved s id

/-- Every state-changing entry point of the plugin, as one request type. -/
inductive Op
  | opCreateListing (user : UserContext) (d : CreateListingInput) (newId : String)
  | opUpdateListing (user : UserContext) (id : String) (d : UpdateListingInput)
  | opDeleteListing (user : UserContext) (id : String)
  | opCreateOffer (user : UserContext) (listingId : String) (d : CreateOfferInput) (newId : String)
  | opUpdateOffer (user : UserContext) (id : String) (d : UpdateOfferInput)
  | opCreateMessage (user : UserContext) (listingId : String) (d : CreateMessageInput) (newId : String)
  | opApprove (cfg : MarketplaceConfig) (user : UserContext) (id : String)
  | opPaymentCompleted (listingId : String)

/-- The store reached by executing one request. -/
def stepStore : Op → Store → Store
  | Op.opCreateListing u d n, s => (createListing s u d n).1
  | Op.opUpdateListing u i d, s => (updateListing s u i d).1
  | Op.opDeleteListing u i, s => (deleteListing s u i).1
  | Op.opCreateOffer u lid d n, s => (createOffer s u lid d n).1
  | Op.opUpdateOffer u i d, s => (updateOffer s u i d).1
  | Op.opCreateMessage u lid d n, s => (createMessage s u lid d n).1
  | Op.opApprove cfg u i, s => (approveRoute cfg u s i).1
  | Op.opPaymentCompleted lid, s => (handlePaymentCompleted s lid).1

/-- One listing existed in the pre-state with the same id and the same
sellerId, or the id is entirely new. -/
def sellerTraceOk (pre post : List Listing) : Prop :=
  ∀ l' ∈ post,
    (∃ l ∈ pre, l.id = l'.id ∧ l.sellerId = l'.sellerId) ∨
    (∀ l ∈ pre, l.id ≠ l'.id)

/- Concrete instances used by the closed theorems and witnesses below. -/

/- C1: a listing and an offer that share the id value X, the only situation
in which the accept path runs to completion. -/

def c1Seller : UserContext := { id := "S", role := "PARENT", familyId := "F" }

def c1Listing : Listing :=
  { id := "X", title := "bike", description := "red bike", price := 100,
    sellerId := "S", condition := ListingCondition.GOOD, images := ["img1"],
    tags := [], status := ListingStatus.AVAILABLE }

def c1Offer : Offer :=
  { id := "X", listingId := "L1", buyerId := "B", amount := 100,
    status := OfferStatus.PENDING, message := none }

def c1Store : Store := { listings := [c1Listing], offers := [c1Offer], messages := [] }

/-- The accept request of the seller; amount 0 is falsy, so the buyer-only guard
does not fire. -/
def c1AcceptReq : UpdateOfferInput :=
  { amount := some 0, message := none, status := some OfferStatus.ACCEPTED }

def c1PostListing : Listing := { c1Listing with status := ListingStatus.PENDING_PAYMENT }

def c1PostOffer : Offer := { c1Offer with amount := 0 }

def c1PostStore : Store :=
  { listings := [c1PostListing], offers := [c1PostOffer], messages := [] }

/- C2: an AVAILABLE listing that already carries maxOffersPerListing (with
the default configuration: 20) PENDING offers. -/

def c2Buyer : UserContext := { id := "B2", role := "CHILD", familyId := "F" }

def c2Listing : Listing :=
  { id := "X", title := "bike", description := "red bike", price := 100,
    sellerId := "S", condition := ListingCondition.GOOD, images := ["img1"],
    tags := [], status := ListingStatus.AVAILABLE }

def c2Offers : List Offer :=
  (List.range 20).map (fun i =>
    { id := "O" ++ toString i, listingId := "X", buyerId := "B", amount := 50,
      status := OfferStatus.PENDING, message := none })

def c2Store : Store := { listings := [c2Listing], offers := c2Offers, messages := [] }

def c2Req : CreateOfferInput := { amount := 10, message := none }

def c2NewOffer : Offer :=
  { id := "O20", listingId := "X", buyerId := "B2", amount := 10,
    status := OfferStatus.PENDING, message := none }

/- C3: a seller making an offer on their own non-AVAILABLE listing, and a
seller making an offer on their own AVAILABLE listing. -/

def c3Seller : UserContext := { id := "S", role := "PARENT", familyId := "F" }

def c3SoldListing : Listing :=
  { id := "L1", title := "bike", description := "red bike", price := 100,
    sellerId := "S", condition := ListingCondition.GOOD, images := ["img1"],
    tags := [], status := ListingStatus.SOLD }

def c3Store : Store := { listings := [c3SoldListing], offers := [], messages := [] }

def c3Req : CreateOfferInput := { amount := 10, message := none }

def c3wListing : Listing := { c3SoldListing with id := "L2", status := ListingStatus.AVAILABLE }

def c3wStore : Store := { listings := [c3wListing], offers := [], messages := [] }

/- C4: a valid creation request on an empty store. -/

def c4wUser : UserContext := { id := "S", role := "PARENT", familyId := "F" }

def c4wInput : CreateListingInput :=
  { title := "bike", description := "red bike", price := 100,
    condition := ListingCondition.GOOD, images := ["img1"], tags := none }

def c4wStore : Store := { listings := [], offers := [], messages := [] }

def c4wListing : Listing :=
  { id := "L1", title := "bike", description := "red bike", price := 100,
    sellerId := "S", condition := ListingCondition.GOOD, images := ["img1"],
    tags := [], status := ListingStatus.PENDING_APPROVAL }

def c4wStore2 : Store := { listings := [c4wListing], offers := [], messages := [] }

/- C5: an authorized approver and a SOLD listing. -/

def c5User : UserContext := { id := "A", role := "PARENT", familyId := "F" }

def c5SoldListing : Listing :=
  { id := "L1", title := "bike", description := "red bike", price := 100,
    sellerId := "S", condition := ListingCondition.GOOD, images := ["img1"],
    tags := [], status := ListingStatus.SOLD }

def c5Store : Store := { listings := [c5SoldListing], offers := [], messages := [] }

def c5wListing : Listing := { c5SoldListing with id := "L2", status := ListingStatus.CANCELLED }

def c5wStore : Store := { listings := [c5wListing], offers := [], messages := [] }

/- C6: a buyer making an offer on a PENDING_APPROVAL listing. -/

def c6Buyer : UserContext := { id := "B", role := "CHILD", familyId := "F" }

def c6Listing : Listing :=
  { id := "L1", title := "bike", description := "red bike", price := 100,
    sellerId := "S", condition := ListingCondition.GOOD, images := ["img1"],
    tags := [], status := ListingStatus.PENDING_APPROVAL }

def c6Store : Store := { listings := [c6Listing], offers := [], messages := [] }

def c6Req : CreateOfferInput := { amount := 10, message := none }

/- C7: an AVAILABLE listing receiving two payment notifications. -/

def c7Listing : Listing :=
  { id := "L1", title := "bike", description := "red bike", price := 100,
    sellerId := "S", condition := ListingCondition.GOOD, images := ["img1"],
    tags := [], status := ListingStatus.AVAILABLE }

def c7Store : Store := { listings := [c7Listing], offers := [], messages := [] }

/- C8: a seller updating their own listing with a patch that carries a
status field. -/

def c8User : UserContext := { id := "S", role := "PARENT", familyId := "F" }

def c8Listing : Listing :=
  { id := "L1", title := "bike", description := "red bike", price := 100,
    sellerId := "S", condition := ListingCondition.GOOD, images := ["img1"],
    tags := [], status := ListingStatus.AVAILABLE }

def c8Store : Store := { listings := [c8Listing], offers := [], messages := [] }

def c8Patch : UpdateListingInput :=
  { title := some "better bike", description := none, price := none,
    condition := none, images := none, tags := none,
    status := some ListingStatus.SOLD }

def c8OutListing : Listing := { c8Listing with title := "better bike" }

def c8OutStore : Store := { listings := [c8OutListing], offers := [], messages := [] }

/- C9: an update request that tries to smuggle a status change. -/

def c9User : UserContext := { id := "S", role := "PARENT", familyId := "F" }

def c9Listing : Listing :=
  { id := "L1", title := "bike", description := "red bike", price := 100,
    sellerId := "S", condition := ListingCondition.GOOD, images := ["img1"],
    tags := [], status := ListingStatus.AVAILABLE }

def c9Store : Store := { listings := [c9Listing], offers := [], messages := [] }

def c9Op : Op :=
  Op.opUpdateListing c9User "L1"
    { title := some "better bike", description := none, price := none,
      condition := none, images := none, tags := none, status := none }

/- C10: an offer O1 whose listing L1 exists, while no listing has id O1. -/

def c10Seller : UserContext := { id := "S", role := "PARENT", familyId := "F" }

def c10Listing : Listing :=
  { id := "L1", title := "bike", description := "red bike", price := 100,
    sellerId := "S", condition := ListingCondition.GOOD, images := ["img1"],
    tags := [], status := ListingStatus.AVAILABLE }

def c10Offer : Offer :=
  { id := "O1", listingId := "L1", buyerId := "B", amount := 100,
    status := OfferStatus.PENDING, message := none }

def c10Store : Store := { listings := [c10Listing], offers := [c10Offer], messages := [] }

def c10Req : UpdateOfferInput :=
  { amount := none, message := none, status := some OfferStatus.ACCEPTED }

/- ------------------------------------------------------------------ -/
/- Helper lemmas about the prisma layer -/

instance exceptDecidableEq {ε α : Type} [DecidableEq ε] [DecidableEq α] :
    DecidableEq (Except ε α)
  | Except.error e1, Except.error e2 =>
    if h : e1 = e2 then Decidable.isTrue (by rw [h])
    else Decidable.isFalse (fun hc => h (Except.error.inj hc))
  | Except.error _, Except.ok _ => Decidable.isFalse (fun hc => Except.noConfusion hc)
  | Except.ok _, Except.error _ => Decidable.isFalse (fun hc => Except.noConfusion hc)
  | Except.ok a1, Except.ok a2 =>
    if h : a1 = a2 then Decidable.isTrue (by rw [h])
    else Decidable.isFalse (fun hc => h (Except.ok.inj hc))

theorem applyListingPatch_id (p : ListingPatch) (l : Listing) :
    (applyListingPatch p l).id = l.id := rfl

theorem applyListingPatch_sellerId (p : ListingPatch) (l : Listing) :
    (applyListingPatch p l).sellerId = l.sellerId := rfl

theorem optGetD_getD {α : Type} (o : Option α) (a : α) :
    o.getD (o.getD a) = o.getD a := by
  cases o <;> rfl

theorem applyListingPatch_idem (p : ListingPatch) (l : Listing) :
    applyListingPatch p (applyListingPatch p l) = applyListingPatch p l := by
  simp [applyListingPatch, optGetD_getD]

theorem find?_patchListings (ls : List Listing) (id : String) (p : ListingPatch) :
    (patchListings ls id p).find? (fun l => l.id == id)
      = (ls.find? (fun l => l.id == id)).map (applyListingPatch p) := by
  induction ls with
  | nil => rfl
  | cons a t ih =>
    unfold patchListings at ih ⊢
    simp only [List.map_cons, List.find?_cons]
    by_cases h : (a.id == id) = true
    · rw [if_pos h, applyListingPatch_id, h]
      rfl
    · rw [if_neg h]
      rw [Bool.not_eq_true] at h
      rw [h]
      exact ih

theorem findListingById_updateStore (s : Store) (id : String) (p : ListingPatch) :
    findListingById (prismaUpdateListingStore s id p) id
      = if listingPatchEmpty p then findListingById s id
        else (findListingById s id).map (applyListingPatch p) := by
  unfold prismaUpdateListingStore
  by_cases h : listingPatchEmpty p = true
  · rw [if_pos h, if_pos h]
  · rw [if_neg h, if_neg h]
    exact find?_patchListings s.listings id p

theorem prismaUpdateListing_of_found (s : Store) (id : String) (p : ListingPatch)
    (l : Listing) (hf : findListingById s id = some l) :
    prismaUpdateListing s id p
      = (prismaUpdateListingStore s id p,
         Except.ok (if listingPatchEmpty p then l else applyListingPatch p l)) := by
  unfold prismaUpdateListing
  by_cases h : listingPatchEmpty p = true
  · rw [findListingById_updateStore, if_pos h, if_pos h, hf]
  · rw [findListingById_updateStore, if_neg h, if_neg h, hf, Option.map_some']

theorem patchListings_idem (ls : List Listing) (id : String) (p : ListingPatch) :
    patchListings (patchListings ls id p) id p = patchListings ls id p := by
  unfold patchListings
  rw [List.map_map]
  congr 1
  funext l
  by_cases h : (l.id == id) = true
  · simp [Function.comp, h, applyListingPatch_id, applyListingPatch_idem]
  · simp [Function.comp, h]

theorem prismaUpdateOffer_listings (s : Store) (id : String) (p : OfferPatch) :
    (prismaUpdateOffer s id p).1.listings = s.listings := by
  unfold prismaUpdateOffer
  split
  · rfl
  · split <;> rfl

theorem listingSchemaPatchParse_status (d : UpdateListingInput) (p : ListingPatch)
    (hp : listingSchemaPatchParse d = Except.ok p) : p.status = none := by
  unfold listingSchemaPatchParse at hp
  split at hp
  · injection hp with h
    rw [← h]
  · exact Except.noConfusion hp

/- ------------------------------------------------------------------ -/
/- Claims -/

/-- Claim C3, counterexample: the seller requests an offer on their own SOLD
listing; the code answers LISTING_UNAVAILABLE, not SELF_OFFER, because the
availability check precedes the self-offer check — refuting "fails with
SelfOffer regardless of the status of the listing". -/
theorem selfOffer_counterexample :
    createOffer c3Store c3Seller "L1" c3Req "O1"
      = (c3Store, Except.error ApiError.LISTING_UNAVAILABLE)
    ∧ ApiError.LISTING_UNAVAILABLE ≠ ApiError.SELF_OFFER
    ∧ c3SoldListing.sellerId = c3Seller.id := by
  decide

/-- Claim C3 (amended): when the listing exists and its status is AVAILABLE,
a createOffer by the seller of the listing fails with SELF_OFFER regardless of the
offer payload; when the status is not AVAILABLE the availability check fires
first and the failure is LISTING_UNAVAILABLE instead. -/
theorem selfOffer_on_available (s : Store) (u : UserContext) (lid : String)
    (d : CreateOfferInput) (n : String) (l : Listing)
    (hf : findListingById s lid = some l)
    (hav : l.status = ListingStatus.AVAILABLE)
    (hself : l.sellerId = u.id) :
    createOffer s u lid d n = (s, Except.error ApiError.SELF_OFFER) := by
  unfold createOffer
  rw [hf]
  simp [hav, hself]

theorem selfOffer_on_available_witness :
    createOffer c3wStore c3Seller "L2" c3Req "O1"
      = (c3wStore, Except.error ApiError.SELF_OFFER) :=
  selfOffer_on_available c3wStore c3Seller "L2" c3Req "O1" c3wListing
    (by decide) (by decide) (by decide)

/-- Claim C6: a createOffer request targeting an existing listing whose
status is not AVAILABLE fails with LISTING_UNAVAILABLE and leaves the store
untouched — no offer is created. -/
theorem createOffer_unavailable (s : Store) (u : UserContext) (lid : String)
    (d : CreateOfferInput) (n : String) (l : Listing)
    (hf : findListingById s lid = some l)
    (hs : l.status ≠ ListingStatus.AVAILABLE) :
    createOffer s u lid d n = (s, Except.error ApiError.LISTING_UNAVAILABLE) := by
  unfold createOffer
  rw [hf]
  have h1 : (l.status == ListingStatus.AVAILABLE) = false := by simpa using hs
  simp [h1]

theorem createOffer_unavailable_witness :
    createOffer c6Store c6Buyer "L1" c6Req "O1"
      = (c6Store, Except.error ApiError.LISTING_UNAVAILABLE) :=
  createOffer_unavailable c6Store c6Buyer "L1" c6Req "O1" c6Listing
    (by decide) (by decide)

/-- Claim C10: updateOffer loads the snapshot for its checks by looking up a
LISTING whose id equals the offer route id; when no such listing exists the
request fails with LISTING_NOT_FOUND even though the offer itself exists. -/
theorem updateOffer_wrong_lookup (s : Store) (u : UserContext) (i : String)
    (d : UpdateOfferInput)
    (ho : ∃ o ∈ s.offers, o.id = i)
    (hnone : findListingById s i = none) :
    updateOffer s u i d = (s, Except.error ApiError.LISTING_NOT_FOUND) := by
  unfold updateOffer
  rw [hnone]

theorem updateOffer_wrong_lookup_witness :
    updateOffer c10Store c10Seller "O1" c10Req
      = (c10Store, Except.error ApiError.LISTING_NOT_FOUND) :=
  updateOffer_wrong_lookup c10Store c10Seller "O1" c10Req
    ⟨c10Offer, by decide, rfl⟩ (by decide)

theorem prismaUpdateListing_statusOnly (s : Store) (i : String) (st : ListingStatus)
    (l : Listing) (hf : findListingById s i = some l) :
    prismaUpdateListing s i (statusOnlyPatch st)
      = (prismaUpdateListingStore s i (statusOnlyPatch st),
         Except.ok (applyListingPatch (statusOnlyPatch st) l)) := by
  rw [prismaUpdateListing_of_found s i _ l hf]
  rfl

theorem findListingById_statusOnly (s : Store) (i : String) (st : ListingStatus)
    (l : Listing) (hf : findListingById s i = some l) :
    findListingById (prismaUpdateListingStore s i (statusOnlyPatch st)) i
      = some (applyListingPatch (statusOnlyPatch st) l) := by
  rw [findListingById_updateStore, hf]
  rfl

theorem prismaUpdateListingStore_statusOnly_idem (s : Store) (i : String)
    (st : ListingStatus) :
    prismaUpdateListingStore (prismaUpdateListingStore s i (statusOnlyPatch st)) i
        (statusOnlyPatch st)
      = prismaUpdateListingStore s i (statusOnlyPatch st) := by
  have h1 : prismaUpdateListingStore s i (statusOnlyPatch st)
      = { listings := patchListings s.listings i (statusOnlyPatch st),
          offers := s.offers, messages := s.messages } := rfl
  rw [h1]
  have h2 : prismaUpdateListingStore
        { listings := patchListings s.listings i (statusOnlyPatch st),
          offers := s.offers, messages := s.messages } i (statusOnlyPatch st)
      = { listings := patchListings (patchListings s.listings i (statusOnlyPatch st)) i
            (statusOnlyPatch st),
          offers := s.offers, messages := s.messages } := rfl
  rw [h2, patchListings_idem]

/-- Claim C4: the code always creates a listing with status PENDING_APPROVAL;
the status is hard-coded in the INSERT and the autoApproval feature flag is
never consulted on the creation path (it only decides whether the approve
route is registered), so with autoApproval enabled the initial status is still
PENDING_APPROVAL — never AVAILABLE. -/
theorem createListing_initial_status (s : Store) (u : UserContext)
    (d : CreateListingInput) (n : String) (s2 : Store) (l : Listing)
    (h : createListing s u d n = (s2, Except.ok l)) :
    l.status = ListingStatus.PENDING_APPROVAL := by
  unfold createListing at h
  split at h
  · unfold prismaCreateListing at h
    split at h
    · injection h with h1 h2
      exact Except.noConfusion h2
    · rename_i hAny
      split at h
      · rename_i l1 heq
        injection h with h1 h2
        injection h2 with h3
        -- the re-read row is the inserted row
        have hnone : s.listings.find? (fun x => x.id == n) = none := by
          rw [List.find?_eq_none]
          intro x hx
          have hx2 := List.any_eq_false.mp (Bool.not_eq_true _ |>.mp hAny) x hx
          simpa using hx2
        have hfind : findListingById (insertListingStore s (newListingRow n d u.id)) n
            = some (newListingRow n d u.id) := by
          unfold findListingById insertListingStore
          rw [List.find?_append, hnone, Option.none_or, List.find?_singleton,
            if_pos (by simp [newListingRow])]
        rw [hfind] at heq
        injection heq with h4
        rw [← h3, ← h4]
        rfl
      · injection h with h1 h2
        exact Except.noConfusion h2
  · injection h with h1 h2
    exact Except.noConfusion h2

theorem createListing_initial_status_witness :
    c4wListing.status = ListingStatus.PENDING_APPROVAL :=
  createListing_initial_status c4wStore c4wUser c4wInput "L1" c4wStore2 c4wListing
    (by decide)

/-- Claim C5, counterexample: an authorized approver approves a SOLD listing;
the call succeeds and the status of the listing changes to AVAILABLE, instead of
failing with an invalid-transition error and leaving the status unchanged —
refuting the claim as stated. -/
theorem approve_counterexample :
    (approveRoute defaultMarketplaceConfig c5User c5Store "L1").2
        = Except.ok { c5SoldListing with status := ListingStatus.AVAILABLE }
    ∧ findListingById (approveRoute defaultMarketplaceConfig c5User c5Store "L1").1 "L1"
        = some { c5SoldListing with status := ListingStatus.AVAILABLE }
    ∧ c5SoldListing.status = ListingStatus.SOLD := by
  decide

/-- Claim C5 (amended): the approve handler performs no status-transition
check: for an authorized caller and any existing listing, whatever its
current status, the call succeeds and the status of the listing becomes
AVAILABLE. -/
theorem approve_sets_available (cfg : MarketplaceConfig) (u : UserContext)
    (s : Store) (i : String) (l : Listing)
    (hrole : cfg.roles.canApproveListings.contains u.role = true)
    (hf : findListingById s i = some l) :
    approveRoute cfg u s i
      = ((approveRoute cfg u s i).1,
         Except.ok (applyListingPatch (statusOnlyPatch ListingStatus.AVAILABLE) l))
    ∧ (applyListingPatch (statusOnlyPatch ListingStatus.AVAILABLE) l).status
        = ListingStatus.AVAILABLE
    ∧ findListingById (approveRoute cfg u s i).1 i
        = some (applyListingPatch (statusOnlyPatch ListingStatus.AVAILABLE) l) := by
  have hred : approveRoute cfg u s i
      = prismaUpdateListing s i (statusOnlyPatch ListingStatus.AVAILABLE) := by
    unfold approveRoute handleListingApproved
    rw [hrole]
    rfl
  refine ⟨?_, rfl, ?_⟩
  · rw [hred, prismaUpdateListing_statusOnly s i _ l hf]
  · rw [hred, prismaUpdateListing_statusOnly s i _ l hf]
    exact findListingById_statusOnly s i _ l hf

theorem approve_sets_available_witness :
    approveRoute defaultMarketplaceConfig c5User c5wStore "L2"
      = ((approveRoute defaultMarketplaceConfig c5User c5wStore "L2").1,
         Except.ok (applyListingPatch (statusOnlyPatch ListingStatus.AVAILABLE) c5wListing))
    ∧ (applyListingPatch (statusOnlyPatch ListingStatus.AVAILABLE) c5wListing).status
        = ListingStatus.AVAILABLE
    ∧ findListingById (approveRoute defaultMarketplaceConfig c5User c5wStore "L2").1 "L2"
        = some (applyListingPatch (statusOnlyPatch ListingStatus.AVAILABLE) c5wListing) :=
  approve_sets_available defaultMarketplaceConfig c5User c5wStore "L2" c5wListing
    (by decide) (by decide)

/-- Claim C7: the payment.completed handler is idempotent — on an existing
listing the first call succeeds with status SOLD, and a second call raises no
error, returns the same row, and leaves the store exactly as the first call
left it. -/
theorem markSold_idempotent (s : Store) (lid : String) (l : Listing)
    (hf : findListingById s lid = some l) :
    ∃ l1, handlePaymentCompleted s lid
        = ((handlePaymentCompleted s lid).1, Except.ok l1)
      ∧ l1.status = ListingStatus.SOLD
      ∧ handlePaymentCompleted (handlePaymentCompleted s lid).1 lid
          = ((handlePaymentCompleted s lid).1, Except.ok l1) := by
  refine ⟨applyListingPatch (statusOnlyPatch ListingStatus.SOLD) l, ?_, rfl, ?_⟩
  · unfold handlePaymentCompleted
    rw [prismaUpdateListing_statusOnly s lid _ l hf]
  · unfold handlePaymentCompleted
    rw [prismaUpdateListing_statusOnly s lid _ l hf]
    show prismaUpdateListing (prismaUpdateListingStore s lid (statusOnlyPatch ListingStatus.SOLD))
        lid (statusOnlyPatch ListingStatus.SOLD)
      = (prismaUpdateListingStore s lid (statusOnlyPatch ListingStatus.SOLD),
         Except.ok (applyListingPatch (statusOnlyPatch ListingStatus.SOLD) l))
    have hf2 := findListingById_statusOnly s lid ListingStatus.SOLD l hf
    rw [prismaUpdateListing_statusOnly _ lid ListingStatus.SOLD _ hf2,
      applyListingPatch_idem, prismaUpdateListingStore_statusOnly_idem]

theorem markSold_idempotent_witness :
    ∃ l1, handlePaymentCompleted c7Store "L1"
        = ((handlePaymentCompleted c7Store "L1").1, Except.ok l1)
      ∧ l1.status = ListingStatus.SOLD
      ∧ handlePaymentCompleted (handlePaymentCompleted c7Store "L1").1 "L1"
          = ((handlePaymentCompleted c7Store "L1").1, Except.ok l1) :=
  markSold_idempotent c7Store "L1" c7Listing (by decide)

/-- Claim C8: updateListing never changes the status of the listing — the status
key of the patch is dropped by validation (the schema does not declare it),
so on success the status of the returned listing equals the status of the
stored listing, whatever the patch contained. -/
theorem updateListing_status_frame (s : Store) (u : UserContext) (i : String)
    (d : UpdateListingInput) (s2 : Store) (l2 : Listing)
    (h : updateListing s u i d = (s2, Except.ok l2)) :
    (∃ l, findListingById s i = some l ∧ l2.status = l.status)
    ∧ ∀ p, listingSchemaPatchParse d = Except.ok p → p.status = none := by
  refine ⟨?_, fun p hp => listingSchemaPatchParse_status d p hp⟩
  unfold updateListing at h
  split at h
  · injection h with h1 h2
    exact Except.noConfusion h2
  · rename_i l hfind
    refine ⟨l, hfind, ?_⟩
    split at h
    · injection h with h1 h2
      exact Except.noConfusion h2
    · split at h
      · injection h with h1 h2
        exact Except.noConfusion h2
      · rename_i p hp
        have hst : p.status = none := listingSchemaPatchParse_status d p hp
        rw [prismaUpdateListing_of_found s i p l hfind] at h
        injection h with h1 h2
        injection h2 with h3
        rw [← h3]
        by_cases he : listingPatchEmpty p = true
        · rw [if_pos he]
        · rw [if_neg he]
          show (applyListingPatch p l).status = l.status
          unfold applyListingPatch
          rw [hst]
          rfl

theorem updateListing_status_frame_witness :
    (∃ l, findListingById c8Store "L1" = some l ∧ c8OutListing.status = l.status)
    ∧ ∀ p, listingSchemaPatchParse c8Patch = Except.ok p → p.status = none :=
  updateListing_status_frame c8Store c8User "L1" c8Patch c8OutStore c8OutListing
    (by decide)

theorem sellerTraceOk_refl (ls : List Listing) : sellerTraceOk ls ls :=
  fun l2 hl2 => Or.inl ⟨l2, hl2, rfl, rfl⟩

theorem sellerTraceOk_patch (ls : List Listing) (i : String) (p : ListingPatch) :
    sellerTraceOk ls (patchListings ls i p) := by
  intro l2 hl2
  unfold patchListings at hl2
  obtain ⟨l, hl, hfl⟩ := List.mem_map.mp hl2
  refine Or.inl ⟨l, hl, ?_, ?_⟩ <;> rw [← hfl] <;>
    by_cases h : (l.id == i) = true <;>
      simp [h, applyListingPatch_id, applyListingPatch_sellerId]

theorem sellerTraceOk_filter (ls : List Listing) (q : Listing → Bool) :
    sellerTraceOk ls (ls.filter q) := fun l2 hl2 =>
  Or.inl ⟨l2, List.mem_of_mem_filter hl2, rfl, rfl⟩

theorem sellerTraceOk_append_fresh (ls : List Listing) (nl : Listing)
    (h : ∀ l ∈ ls, (l.id == nl.id) = false) :
    sellerTraceOk ls (ls ++ [nl]) := by
  intro l2 hl2
  rcases List.mem_append.mp hl2 with h1 | h1
  · exact Or.inl ⟨l2, h1, rfl, rfl⟩
  · have h2 : l2 = nl := by simpa using h1
    subst h2
    right
    intro l hl hEq
    have h3 := h l hl
    rw [hEq] at h3
    simp at h3

theorem sellerTraceOk_updateStore (s : Store) (i : String) (p : ListingPatch) :
    sellerTraceOk s.listings (prismaUpdateListingStore s i p).listings := by
  unfold prismaUpdateListingStore
  by_cases h : listingPatchEmpty p = true
  · rw [if_pos h]
    exact sellerTraceOk_refl _
  · rw [if_neg h]
    exact sellerTraceOk_patch _ _ _

theorem sellerTraceOk_prismaUpdateListing (s : Store) (i : String) (p : ListingPatch) :
    sellerTraceOk s.listings (prismaUpdateListing s i p).1.listings := by
  unfold prismaUpdateListing
  split <;> exact sellerTraceOk_updateStore s i p

theorem stepStore_sellerTrace (op : Op) (s : Store) :
    sellerTraceOk s.listings (stepStore op s).listings := by
  cases op with
  | opCreateListing u d n =>
    show sellerTraceOk s.listings (createListing s u d n).1.listings
    unfold createListing
    split
    · unfold prismaCreateListing
      split
      · exact sellerTraceOk_refl _
      · rename_i hAny
        have hAny2 : s.listings.any (fun l => l.id == n) = false := by simpa using hAny
        have hAll : ∀ l ∈ s.listings, (l.id == (newListingRow n d u.id).id) = false := by
          intro l hl
          have h3 := List.any_eq_false.mp hAny2 l hl
          simpa [newListingRow] using h3
        split <;>
          exact sellerTraceOk_append_fresh s.listings (newListingRow n d u.id) hAll
    · exact sellerTraceOk_refl _
  | opUpdateListing u i d =>
    show sellerTraceOk s.listings (updateListing s u i d).1.listings
    unfold updateListing
    split
    · exact sellerTraceOk_refl _
    · split
      · exact sellerTraceOk_refl _
      · split
        · exact sellerTraceOk_refl _
        · exact sellerTraceOk_prismaUpdateListing s i _
  | opDeleteListing u i =>
    show sellerTraceOk s.listings (deleteListing s u i).1.listings
    unfold deleteListing
    split
    · exact sellerTraceOk_refl _
    · split
      · exact sellerTraceOk_refl _
      · unfold prismaDeleteListing
        split
        · exact sellerTraceOk_filter _ _
        · exact sellerTraceOk_refl _
  | opCreateOffer u lid d n =>
    show sellerTraceOk s.listings (createOffer s u lid d n).1.listings
    unfold createOffer
    split
    · exact sellerTraceOk_refl _
    · split
      · exact sellerTraceOk_refl _
      · split
        · exact sellerTraceOk_refl _
        · split
          · unfold prismaCreateOffer
            split
            · exact sellerTraceOk_refl _
            · exact sellerTraceOk_refl _
          · exact sellerTraceOk_refl _
  | opUpdateOffer u i d =>
    show sellerTraceOk s.listings (updateOffer s u i d).1.listings
    unfold updateOffer
    split
    · exact sellerTraceOk_refl _
    · rename_i listing hfind
      split
      · exact sellerTraceOk_refl _
      · split
        · exact sellerTraceOk_refl _
        · split
          · exact sellerTraceOk_refl _
          · rename_i p hp
            split
            · rename_i s1 e heq
              have h2 : (prismaUpdateOffer s i p).1 = s1 := by rw [heq]
              have h1 : s1.listings = s.listings := by
                rw [← h2, prismaUpdateOffer_listings]
              rw [show ((s1, Except.error e) : Store × Except ApiError Offer).1 = s1 from rfl]
              rw [h1]
              exact sellerTraceOk_refl _
            · rename_i s1 o1 heq
              have h2 : (prismaUpdateOffer s i p).1 = s1 := by rw [heq]
              have h1 : s1.listings = s.listings := by
                rw [← h2, prismaUpdateOffer_listings]
              split
              · split
                · rename_i s2 e2 heq2
                  have h4 : (prismaUpdateListing s1 listing.id
                      (statusOnlyPatch ListingStatus.PENDING_PAYMENT)).1 = s2 := by
                    rw [heq2]
                  have h3 := sellerTraceOk_prismaUpdateListing s1 listing.id
                    (statusOnlyPatch ListingStatus.PENDING_PAYMENT)
                  rw [h4, h1] at h3
                  exact h3
                · rename_i s2 o2 heq2
                  have h4 : (prismaUpdateListing s1 listing.id
                      (statusOnlyPatch ListingStatus.PENDING_PAYMENT)).1 = s2 := by
                    rw [heq2]
                  have h3 := sellerTraceOk_prismaUpdateListing s1 listing.id
                    (statusOnlyPatch ListingStatus.PENDING_PAYMENT)
                  rw [h4, h1] at h3
                  exact h3
              · rw [show ((s1, Except.ok o1) : Store × Except ApiError Offer).1 = s1 from rfl]
                rw [h1]
                exact sellerTraceOk_refl _
  | opCreateMessage u lid d n =>
    show sellerTraceOk s.listings (createMessage s u lid d n).1.listings
    unfold createMessage
    split
    · exact sellerTraceOk_refl _
    · split
      · unfold prismaCreateMessage
        split
        · exact sellerTraceOk_refl _
        · exact sellerTraceOk_refl _
      · exact sellerTraceOk_refl _
  | opApprove cfg u i =>
    show sellerTraceOk s.listings (approveRoute cfg u s i).1.listings
    unfold approveRoute handleListingApproved
    split
    · exact sellerTraceOk_refl _
    · exact sellerTraceOk_prismaUpdateListing s i _
  | opPaymentCompleted lid =>
    show sellerTraceOk s.listings (handlePaymentCompleted s lid).1.listings
    unfold handlePaymentCompleted
    exact sellerTraceOk_prismaUpdateListing s lid _

/-- Claim C9: no exposed operation changes the sellerId of an existing
listing — in a store with distinct listing ids, any listing present after any
request that shares an id with a listing present before it has that earlier
sellerId of an existing listing. -/
theorem sellerId_never_changes (op : Op) (s : Store)
    (hnd : (s.listings.map Listing.id).Nodup) :
    ∀ l ∈ s.listings, ∀ l2 ∈ (stepStore op s).listings,
      l2.id = l.id → l2.sellerId = l.sellerId := by
  intro l hl l2 hl2 hid
  rcases stepStore_sellerTrace op s l2 hl2 with ⟨l0, hl0, hid0, hsel⟩ | hfresh
  · have heq : l0 = l := List.inj_on_of_nodup_map hnd hl0 hl (by rw [hid0, hid])
    rw [← hsel, heq]
  · exact absurd hid.symm (hfresh l hl)

theorem sellerId_never_changes_witness :
    (c9Store.listings.map Listing.id).Nodup
    ∧ ∀ l ∈ c9Store.listings, ∀ l2 ∈ (stepStore c9Op c9Store).listings,
        l2.id = l.id → l2.sellerId = l.sellerId :=
  ⟨by decide, sellerId_never_changes c9Op c9Store (by decide)⟩

/-- Claim C1, failing-input evaluation: an accept request by the seller (status
ACCEPTED, amount 0) in the only store shape where the accept path can run to
completion — an offer whose id value also names a listing — succeeds, yet the
offer remains PENDING (validation strips the status key before the offer row
update) while the listing moves to PENDING_PAYMENT: exactly one of the two
entities transitions, so the accept is neither atomic nor does it ever
produce an ACCEPTED offer. -/
theorem accept_not_atomic :
    updateOffer c1Store c1Seller "X" c1AcceptReq = (c1PostStore, Except.ok c1PostOffer)
    ∧ c1AcceptReq.status = some OfferStatus.ACCEPTED
    ∧ c1Listing.sellerId = c1Seller.id
    ∧ c1Offer.status = OfferStatus.PENDING
    ∧ c1PostOffer.status = OfferStatus.PENDING
    ∧ findListingById c1PostStore "X" = some c1PostListing
    ∧ c1PostListing.status = ListingStatus.PENDING_PAYMENT := by
  decide

/-- Claim C2, failing-input evaluation: with the default-configuration
maxOffersPerListing of 20 and a listing already holding 20 PENDING
(non-terminal) offers, a valid 21st offer by another buyer is created
successfully — createOffer checks no offer-count limit at all, so no
LimitExceeded failure can occur. -/
theorem offer_limit_not_enforced :
    c2Store.offers.length = defaultMarketplaceConfig.limits.maxOffersPerListing
    ∧ (∀ o ∈ c2Store.offers, o.status = OfferStatus.PENDING ∧ o.listingId = "X")
    ∧ (createOffer c2Store c2Buyer "X" c2Req "O20").2 = Except.ok c2NewOffer
    ∧ (createOffer c2Store c2Buyer "X" c2Req "O20").1.offers.length
        = defaultMarketplaceConfig.limits.maxOffersPerListing + 1 := by
  decide

end Marketplace
